import Mathlib

/-!
Shallow embedding of fakexrandr (src/fakexrandr.h, src/libxcb-randr.cpp) and a
verification of its design-document claims.

Machine integers are modelled as `Nat` with explicit reductions modulo `2 ^ 32`
(`unsigned int` / `uint32_t`) or `2 ^ 16` (`uint16_t`) wherever the C code can
overflow or truncate.  Pointer-typed state is modelled explicitly (see
`PtrState`).  Variable-length reply data (id arrays, name blobs) is modelled as
`List Nat` of byte or id values.
-/

namespace FakeXRandr

/-! ## Identifier codec (fakexrandr.h lines 20-21, libxcb-randr.cpp lines 370-373) -/

/-- Model of `#define XID_SPLIT_SHIFT 21` (fakexrandr.h line 20). -/
def XID_SPLIT_SHIFT : Nat := 21

/-- Model of `#define XID_SPLIT_MASK 0x7FE00000` (fakexrandr.h line 21). -/
def XID_SPLIT_MASK : Nat := 0x7FE00000

/-- The value of `~XID_SPLIT_MASK` after conversion to `uint32_t`, i.e.
`0x801FFFFF`.  The C expression `xid & ~XID_SPLIT_MASK` computes
`xid &&& 0x801FFFFF` on 32-bit unsigned values. -/
def XID_SPLIT_MASK_COMPL : Nat := 0x801FFFFF

/-- Model of `augmentXID` (libxcb-randr.cpp lines 370-373):
`return (xid & ~XID_SPLIT_MASK) | (n << XID_SPLIT_SHIFT);` on `uint32_t`.
The shift is reduced modulo `2 ^ 32` as the C shift of a `uint32_t` is. -/
def augmentXID (xid n : Nat) : Nat :=
  (xid &&& XID_SPLIT_MASK_COMPL) ||| ((n <<< XID_SPLIT_SHIFT) % 2 ^ 32)

/-- Decoding, real part, per the documented scheme (fakexrandr.h line 9):
`xid & ~XID_SPLIT_MASK` is the xid of the original output. -/
def decodeReal (xid : Nat) : Nat := xid &&& XID_SPLIT_MASK_COMPL

/-- Decoding, split-counter part, per the documented scheme (fakexrandr.h
line 10): `xid >> XID_SPLIT_SHIFT` is the counter identifying the virtual
screen. -/
def decodeIdx (xid : Nat) : Nat := xid >>> XID_SPLIT_SHIFT

/-! ## 32-bit wrap-around arithmetic

The split traversal works on `unsigned int` coordinates; sums and differences
wrap modulo `2 ^ 32`. -/

/-- Model of `a + b` on `unsigned int`. -/
def wadd (a b : Nat) : Nat := (a + b) % 2 ^ 32

/-- Model of `a - b` on `unsigned int` (wrap-around on underflow). -/
def wsub (a b : Nat) : Nat := (a + (2 ^ 32 - b % 2 ^ 32)) % 2 ^ 32

/-! ## Split plans

The configuration payload walked by `_config_foreach_split`
(libxcb-randr.cpp lines 383-442) is a byte-encoded binary tree: tag `'N'`
(0x4E) is a leaf, tag `'H'` (0x48) or `'V'` (0x56) is followed by a 4-byte
little-endian split offset and the two children in document order.  We model
the tree both structurally (`SplitPlan`) and as the raw byte stream, and prove
the two traversals agree on serialized plans. -/

inductive SplitPlan where
  | leaf : SplitPlan
  | hsplit (s : Nat) (a b : SplitPlan) : SplitPlan
  | vsplit (s : Nat) (a b : SplitPlan) : SplitPlan
deriving DecidableEq

/-- Number of leaves of a plan. -/
def leafCount : SplitPlan → Nat
  | .leaf => 1
  | .hsplit _ a b => leafCount a + leafCount b
  | .vsplit _ a b => leafCount a + leafCount b

/-- A rectangle (x, y, w, h), as passed through `_config_foreach_split`. -/
structure Rect where
  x : Nat
  y : Nat
  w : Nat
  h : Nat
deriving DecidableEq

/-- The (x, y, w, h) arguments `_config_foreach_split` passes at each leaf,
in traversal order.  A horizontal split at offset `s` recurses on
`(x, y, w, s)` then `(x, y + s, w, h - s)` (lines 428-431); a vertical split
recurses on `(x, y, s, h)` then `(x + s, y, w - s, h)` (lines 437-440), with
`unsigned int` arithmetic. -/
def splitLeaves : SplitPlan → Nat → Nat → Nat → Nat → List Rect
  | .leaf, x, y, w, h => [⟨x, y, w, h⟩]
  | .hsplit s a b, x, y, w, h =>
      splitLeaves a x y w s ++ splitLeaves b x (wadd y s) w (wsub h s)
  | .vsplit s a b, x, y, w, h =>
      splitLeaves a x y s h ++ splitLeaves b (wadd x s) y (wsub w s) h

/-- Point membership in a rectangle. -/
def inRect (r : Rect) (px py : Nat) : Prop :=
  r.x ≤ px ∧ px < r.x + r.w ∧ r.y ≤ py ∧ py < r.y + r.h

instance (r : Rect) (px py : Nat) : Decidable (inRect r px py) := by
  unfold inRect
  infer_instance

/-- Two rectangles share no point. -/
def rectDisjoint (r1 r2 : Rect) : Prop :=
  ∀ px py, ¬(inRect r1 px py ∧ inRect r2 px py)

/-- Well-formedness of a plan with respect to the dimensions it is applied to:
every split offset is at most the dimension being split.  (The configuration
format does not enforce this; it is the hypothesis of the amended tiling
claim.) -/
def planWF : SplitPlan → Nat → Nat → Prop
  | .leaf, _, _ => True
  | .hsplit s a b, w, h => s ≤ h ∧ planWF a w s ∧ planWF b w (h - s)
  | .vsplit s a b, w, h => s ≤ w ∧ planWF a s h ∧ planWF b (w - s) h

instance : ∀ (p : SplitPlan) (w h : Nat), Decidable (planWF p w h)
  | .leaf, _, _ => by unfold planWF; infer_instance
  | .hsplit s a b, w, h =>
      have : Decidable (planWF a w s) := instDecidablePlanWF a w s
      have : Decidable (planWF b w (h - s)) := instDecidablePlanWF b w (h - s)
      by unfold planWF; infer_instance
  | .vsplit s a b, w, h =>
      have : Decidable (planWF a s h) := instDecidablePlanWF a s h
      have : Decidable (planWF b (w - s) h) := instDecidablePlanWF b (w - s) h
      by unfold planWF; infer_instance

/-! ## Protocol reply shapes (the fields the engine reads or writes) -/

/-- Model of `xcb_randr_mode_info_t`.  `extra` stands for the timing fields
(dot clock, sync widths, flags, ...) that the engine copies verbatim. -/
structure ModeInfo where
  id : Nat
  width : Nat
  height : Nat
  name_len : Nat
  extra : Nat
deriving DecidableEq

/-- The fields of `xcb_randr_get_crtc_info_reply_t` the engine uses.
`x`/`y` are `int16_t`, stored as their 16-bit two's-complement patterns;
`width`/`height` are `uint16_t`. -/
structure CrtcInfo where
  x : Nat
  y : Nat
  width : Nat
  height : Nat
  mode : Nat
  num_outputs : Nat
  num_possible_outputs : Nat
  outputs : List Nat
deriving DecidableEq

/-- The fields of `xcb_randr_get_output_info_reply_t` the engine uses,
with the variable-length arrays (crtcs, modes, clones, name) as lists. -/
structure OutputInfo where
  crtc : Nat
  mm_width : Nat
  mm_height : Nat
  connection : Nat
  num_crtcs : Nat
  num_modes : Nat
  num_preferred : Nat
  num_clones : Nat
  name_len : Nat
  crtcs : List Nat
  modes : List Nat
  clones : List Nat
  name : List Nat
deriving DecidableEq

/-- Model of `XCB_RANDR_CONNECTION_DISCONNECTED` (value 1 in the RandR protocol). -/
def XCB_RANDR_CONNECTION_DISCONNECTED : Nat := 1

/-! ## Fake (virtual) objects (libxcb-randr.cpp lines 166-279) -/

/-- Decimal digits of `n` as ASCII codes (what `snprintf` `%d` prints for a
non-negative value), via a structurally-recursive helper. -/
def decDigitsAux : Nat → Nat → List Nat
  | 0, _ => []
  | fuel + 1, n => if n < 10 then [48 + n] else decDigitsAux fuel (n / 10) ++ [48 + n % 10]

def decDigits (n : Nat) : List Nat := decDigitsAux (n + 1) n

/-- The name `snprintf(name, ..., "%dx%d", width, height)` produces for a fake
mode (libxcb-randr.cpp lines 267-269); the constructor parameters are
`uint16_t`, hence the truncation.  120 is the code of `'x'`. -/
def modeName (w h : Nat) : List Nat :=
  decDigits (w % 2 ^ 16) ++ [120] ++ decDigits (h % 2 ^ 16)

/-- Model of `FakeCrtcInfo` (lines 166-200): the stored fixed-size crtc reply plus the
single fake output id. -/
structure FakeCrtcInfo where
  xid : Nat
  orig_crtc_info : CrtcInfo
  output : Nat
deriving DecidableEq

/-- Model of `FakeOutputInfo` (lines 202-253): the stored fixed-size output reply plus
the separately-kept modes/clones/name arrays. -/
structure FakeOutputInfo where
  xid : Nat
  parent_xid : Nat
  orig_output_info : OutputInfo
  modes : List Nat
  clones : List Nat
  name : List Nat
deriving DecidableEq

/-- Model of `FakeModeInfo` (lines 255-279): an `xcb_randr_mode_info_t` base with the
name kept separately. -/
structure FakeModeInfo where
  info : ModeInfo
  name : List Nat
deriving DecidableEq

/-- The per-monitor inputs of `_config_foreach_split`: the real output id, its
output-info and crtc-info replies, and the mode table of the screen-resources
reply. -/
structure PlanEnv where
  output : Nat
  output_info : OutputInfo
  crtc_info : CrtcInfo
  res_modes : List ModeInfo
deriving DecidableEq

/-- The three result lists `_config_foreach_split` appends to (the C code
appends at the tail through pointer-to-tail-pointer arguments). -/
structure FakeLists where
  outputs : List FakeOutputInfo
  crtcs : List FakeCrtcInfo
  modes : List FakeModeInfo
deriving DecidableEq

/-- The `FakeOutputInfo` built in the `config[0] == 'N'` branch (lines
391-402 together with the constructor at lines 213-232): mm sizes are scaled
per dimension with `unsigned` multiplication (wrapping at `2 ^ 32`) and
truncating division; the clone list is re-encoded with the leaf index; the
crtc and the single mode entry are the re-encoded parent crtc.  The name is
parent name ++ "~" ++ index (126 is the code of `'~'`), assuming the parent
reply's name blob holds exactly `name_len` bytes of the name. -/
def mkFakeOutput (env : PlanEnv) (n w h : Nat) : FakeOutputInfo :=
  let oi := env.output_info
  let newName := oi.name.take oi.name_len ++ [126] ++ decDigits n
  { xid := augmentXID env.output n
    parent_xid := env.output
    orig_output_info := { oi with
      mm_width := oi.mm_width * w % 2 ^ 32 / env.crtc_info.width
      mm_height := oi.mm_height * h % 2 ^ 32 / env.crtc_info.height
      num_crtcs := 1
      num_modes := 1
      num_preferred := 0
      crtc := augmentXID oi.crtc n
      name_len := newName.length }
    modes := [augmentXID oi.crtc n]
    clones := oi.clones.map (fun c => augmentXID c n)
    name := newName }

/-- The `FakeCrtcInfo` built at lines 405-408 (constructor at lines 174-186):
origin offset by the leaf rectangle, fields stored at their C widths
(`int16_t` x/y, `uint16_t` width/height). -/
def mkFakeCrtc (env : PlanEnv) (n x y w h mode0 : Nat) : FakeCrtcInfo :=
  { xid := augmentXID env.output_info.crtc n
    output := augmentXID env.output n
    orig_crtc_info := { env.crtc_info with
      num_outputs := 1
      num_possible_outputs := 1
      x := (env.crtc_info.x + x) % 2 ^ 16
      y := (env.crtc_info.y + y) % 2 ^ 16
      width := w % 2 ^ 16
      height := h % 2 ^ 16
      mode := mode0 } }

/-- The `FakeModeInfo` built at lines 410-421 (constructor at lines 260-270)
from the matching real mode-table entry. -/
def mkFakeMode (xid : Nat) (base : ModeInfo) (w h : Nat) : FakeModeInfo :=
  let nm := modeName w h
  { info := { base with
      id := xid
      width := w % 2 ^ 16
      height := h % 2 ^ 16
      name_len := nm.length }
    name := nm }

/-- The whole `config[0] == 'N'` leaf branch (lines 388-423): bump the shared
counter, emit one fake output and one fake crtc, and one fake mode for the
first real mode-table entry whose id is the parent crtc's current mode
(none when the mode table has no such entry). -/
def pushLeaf (env : PlanEnv) (n x y w h : Nat) (acc : FakeLists) : Nat × FakeLists :=
  let n1 := n + 1
  let fout := mkFakeOutput env n1 w h
  let fcrtc := mkFakeCrtc env n1 x y w h (augmentXID env.output_info.crtc n1)
  let fmodes := match env.res_modes.find? (fun m => m.id == env.crtc_info.mode) with
    | some m => [mkFakeMode (augmentXID env.output_info.crtc n1) m w h]
    | none => []
  (n1, { outputs := acc.outputs ++ [fout]
         crtcs := acc.crtcs ++ [fcrtc]
         modes := acc.modes ++ fmodes })

/-- Structural form of `_config_foreach_split` (lines 383-442): thread the
counter and the result lists through the leaves in document order. -/
def foreachSplitP (env : PlanEnv) : SplitPlan → Nat → Nat → Nat → Nat → Nat → FakeLists → Nat × FakeLists
  | .leaf, n, x, y, w, h, acc => pushLeaf env n x y w h acc
  | .hsplit s a b, n, x, y, w, h, acc =>
      let r1 := foreachSplitP env a n x y w s acc
      foreachSplitP env b r1.1 x (wadd y s) w (wsub h s) r1.2
  | .vsplit s a b, n, x, y, w, h, acc =>
      let r1 := foreachSplitP env a n x y s h acc
      foreachSplitP env b r1.1 (wadd x s) y (wsub w s) h r1.2

/-! ## Byte-level `_config_foreach_split` -/

/-- Reading `*(unsigned int *)&config[1]` (line 425): 4 bytes little-endian;
`none` when fewer than 4 bytes remain (an out-of-bounds read in C). -/
def readLE32 : List Nat → Option Nat
  | b0 :: b1 :: b2 :: b3 :: _ => some (b0 + 256 * b1 + 65536 * b2 + 16777216 * b3)
  | _ => none

/-- Model of `_config_foreach_split` on the raw payload bytes, fuel-indexed.  The
first component is the counter and the lists as already emitted; the second
is `some rest` (the updated `config` pointer) on normal return and `none`
where the C code's behaviour is not a normal return: reading past the end of
the payload, running the `assert(config[0] == 'V')` with a tag that is none
of `'N'`/`'H'`/`'V'` (which aborts the process), or fuel exhaustion (which a
serialized plan never reaches, see `configForeachSplit_ser`).  Objects
already appended stay appended: the C code emits through the caller's list
tails before any later abort. -/
def configForeachSplit (env : PlanEnv) : Nat → List Nat → Nat → Nat → Nat → Nat → Nat → FakeLists → (Nat × FakeLists) × Option (List Nat)
  | 0, _, n, _, _, _, _, acc => ((n, acc), none)
  | _ + 1, [], n, _, _, _, _, acc => ((n, acc), none)
  | fuel + 1, t :: rest, n, x, y, w, h, acc =>
    if t = 78 then (pushLeaf env n x y w h acc, some rest)
    else match readLE32 rest with
      | none => ((n, acc), none)
      | some s =>
        if t = 72 then
          match configForeachSplit env fuel (rest.drop 4) n x y w s acc with
          | (r1, none) => (r1, none)
          | (r1, some bytes2) =>
              configForeachSplit env fuel bytes2 r1.1 x (wadd y s) w (wsub h s) r1.2
        else if t = 86 then
          match configForeachSplit env fuel (rest.drop 4) n x y s h acc with
          | (r1, none) => (r1, none)
          | (r1, some bytes2) =>
              configForeachSplit env fuel bytes2 r1.1 (wadd x s) y (wsub w s) h r1.2
        else ((n, acc), none)

/-- Little-endian 4-byte encoding of an offset, as the management script
stores it and `*(unsigned int *)&config[1]` reads it. -/
def encLE32 (s : Nat) : List Nat :=
  [s % 256, s / 256 % 256, s / 65536 % 256, s / 16777216 % 256]

/-- Serialization of a structural plan into the payload byte format. -/
def ser : SplitPlan → List Nat
  | .leaf => [78]
  | .hsplit s a b => 72 :: (encLE32 s ++ (ser a ++ ser b))
  | .vsplit s a b => 86 :: (encLE32 s ++ (ser a ++ ser b))

/-- Byte length of a serialized plan. -/
def serLen : SplitPlan → Nat
  | .leaf => 1
  | .hsplit _ a b => 5 + serLen a + serLen b
  | .vsplit _ a b => 5 + serLen a + serLen b

/-- All stored offsets fit in 32 bits (they are stored as `unsigned int`). -/
def planBounded : SplitPlan → Prop
  | .leaf => True
  | .hsplit s a b => s < 2 ^ 32 ∧ planBounded a ∧ planBounded b
  | .vsplit s a b => s < 2 ^ 32 ∧ planBounded a ∧ planBounded b

instance : ∀ (p : SplitPlan), Decidable (planBounded p)
  | .leaf => by unfold planBounded; infer_instance
  | .hsplit s a b =>
      have : Decidable (planBounded a) := instDecidablePlanBounded a
      have : Decidable (planBounded b) := instDecidablePlanBounded b
      by unfold planBounded; infer_instance
  | .vsplit s a b =>
      have : Decidable (planBounded a) := instDecidablePlanBounded a
      have : Decidable (planBounded b) := instDecidablePlanBounded b
      by unfold planBounded; infer_instance

/-! ## Configuration records and matching (libxcb-randr.cpp lines 444-484) -/

/-- Model of `strncmp(a, b, k) == 0`: equal byte-by-byte until a common NUL or until
`k` bytes are compared.  Buffers of unequal length that agree on the shorter
one would read out of bounds in C; the model treats that as unequal (the
engine only ever compares two 768-byte fields). -/
def strncmpEq : List Nat → List Nat → Nat → Bool
  | _, _, 0 => true
  | [], [], _ + 1 => true
  | a0 :: as0, b0 :: bs0, k + 1 => a0 == b0 && (a0 == 0 || strncmpEq as0 bs0 k)
  | _, _, _ + 1 => false

/-- One record of the configuration stream: 4-byte size, 128-byte name,
768-byte hex fingerprint, target width and height, then the split-plan
payload (modelled structurally here; `configForeachSplit_ser` ties the
structural traversal to the byte-level one). -/
structure ConfigRecord where
  name : List Nat
  edid : List Nat
  width : Nat
  height : Nat
  plan : SplitPlan
deriving DecidableEq

/-- Model of `config_handle_output` (lines 444-484), given the pre-fetched output-info
and crtc-info replies in `env`: scan the records in stream order; on the first
whose fingerprint strncmp-matches the target AND whose recorded size equals
the current crtc size, run the split traversal (with a fresh counter, at
origin (0,0)) and report a match; skip records failing either test; report no
match at the end of the stream.  The comparison `output_crtc->width ==
(int)width` promotes the `uint16_t` crtc width and casts the recorded width
to `int`; for the value ranges representable in the record this is plain
equality of values. -/
def config_handle_output (env : PlanEnv) (target_edid : List Nat) (acc : FakeLists) : List ConfigRecord → FakeLists × Bool
  | [] => (acc, false)
  | r :: rest =>
    if strncmpEq r.edid target_edid 768 then
      if env.crtc_info.width == r.width && env.crtc_info.height == r.height then
        ((foreachSplitP env r.plan 0 0 0 r.width r.height acc).2, true)
      else config_handle_output env target_edid acc rest
    else config_handle_output env target_edid acc rest

/-! ## Screen resources and the composed reply (lines 281-368) -/

/-- The fields of `xcb_randr_get_screen_resources_reply_t` the engine uses,
with the variable-length arrays as lists.  The count fields are `uint16_t`. -/
structure ScreenRes where
  timestamp : Nat
  config_timestamp : Nat
  num_crtcs : Nat
  num_outputs : Nat
  num_modes : Nat
  names_len : Nat
  crtcs : List Nat
  outputs : List Nat
  modes : List ModeInfo
  names : List Nat
deriving DecidableEq

/-- Model of `FakeScreenResources` (lines 281-368): the cached copy of the real reply
plus the three fake lists. -/
structure FakeScreenResources where
  origRes : ScreenRes
  fake_crtcs : List FakeCrtcInfo
  fake_outputs : List FakeOutputInfo
  fake_modes : List FakeModeInfo
deriving DecidableEq

/-- Model of `strcat(buf, name)`: copy `name` and a terminating NUL starting at the
first NUL of `buf` (the tail beyond it is unreachable through `strlen`). -/
def strcatBuf (buf name : List Nat) : List Nat :=
  buf.takeWhile (fun c => c != 0) ++ name ++ [0]

/-- Model of `strlen(buf)`: bytes before the first NUL. -/
def strlenBuf (buf : List Nat) : Nat :=
  (buf.takeWhile (fun c => c != 0)).length

/-- Model of `FakeScreenResources::makeReturnValue` (lines 307-367): copy the fixed
header, then each id array real-entries-first (`std::copy_n` of the real
count) followed by the fake entries (each appended entry bumping the
`uint16_t` count), then the real name blob, a NUL, and each fake mode's name
via `strcat`, with `names_len` recomputed by `strlen`. -/
def FakeScreenResources.makeReturnValue (s : FakeScreenResources) : ScreenRes :=
  let o := s.origRes
  let namesBuf0 := o.names.take o.names_len ++ [0]
  let namesBuf := s.fake_modes.foldl (fun buf m => strcatBuf buf m.name) namesBuf0
  { timestamp := o.timestamp
    config_timestamp := o.config_timestamp
    num_crtcs := (o.num_crtcs + s.fake_crtcs.length) % 2 ^ 16
    num_outputs := (o.num_outputs + s.fake_outputs.length) % 2 ^ 16
    num_modes := (o.num_modes + s.fake_modes.length) % 2 ^ 16
    crtcs := o.crtcs.take o.num_crtcs ++ s.fake_crtcs.map (fun c => c.xid)
    outputs := o.outputs.take o.num_outputs ++ s.fake_outputs.map (fun f => f.xid)
    modes := o.modes.take o.num_modes ++ s.fake_modes.map (fun m => m.info)
    names := namesBuf
    names_len := strlenBuf namesBuf % 2 ^ 16 }

/-- Model of `FakeOutputInfo::makeReturnValue` (lines 233-247): the stored fixed part
with the crtc array `[crtc]` and the stored modes/clones/name arrays. -/
def FakeOutputInfo.makeReturnValue (f : FakeOutputInfo) : OutputInfo :=
  { f.orig_output_info with
    crtcs := [f.orig_output_info.crtc]
    modes := f.modes
    clones := f.clones
    name := f.name }

/-! ## The engine's pointer state and the screen-resources entry points -/

/-- The process-wide `FakeScreenResources* fakeScreenResources` pointer
(line 533).  `deleteObj` frees the object but does not clear the pointer, so
a freed-but-set pointer (`dangling`) is distinct from `null`. -/
inductive PtrState where
  | null : PtrState
  | valid (s : FakeScreenResources) : PtrState
  | dangling : PtrState
deriving DecidableEq

/-- The `if(fakeScreenResources) deleteObj(fakeScreenResources);` step at the
top of both reply wrappers (lines 588-589, 598-599). -/
def deleteIfSet : PtrState → PtrState
  | .null => .null
  | .valid _ => .dangling
  | .dangling => .dangling

/-- The per-output loop of `updateFakeResources` (lines 550-555): for each
real output whose EDID fetch yields a non-empty hex string, run
`config_handle_output`, accumulating the fake lists across outputs.
`edidOf` models `get_output_edid` (`none` = fetch failure or empty
property); `envOf` models the output-info/crtc-info fetches. -/
def buildFakeLists (records : List ConfigRecord) (edidOf : Nat → Option (List Nat)) (envOf : Nat → PlanEnv) (outs : List Nat) : FakeLists :=
  outs.foldl (fun acc out =>
    match edidOf out with
    | some e => (config_handle_output (envOf out) e acc records).1
    | none => acc) ⟨[], [], []⟩

/-- Model of `updateFakeResources` (lines 534-558).  `cfg = none` models
`open_configuration()` failing (missing/unreadable configuration,
fakexrandr.h lines 39-82): the function returns early and the pointer is
left exactly as it was — in particular it does NOT install a fresh
snapshot. -/
def updateFakeResources (cfg : Option (List ConfigRecord)) (edidOf : Nat → Option (List Nat)) (envOf : Nat → PlanEnv) (res : ScreenRes) (st : PtrState) : PtrState :=
  match cfg with
  | none => st
  | some records =>
      let fl := buildFakeLists records edidOf envOf res.outputs
      .valid ⟨res, fl.crtcs, fl.outputs, fl.modes⟩

/-- Model of `xcb_randr_get_screen_resources_reply` /
`..._current_reply` (lines 584-603): free any previous snapshot, fetch the
real reply (`res`), run `updateFakeResources`, then return
`fakeScreenResources->makeReturnValue()`.  When the pointer is null (first
call) or dangling (freed above and never re-installed) that dereference has
no defined result, modelled as `none`. -/
def getScreenResourcesReply (st : PtrState) (cfg : Option (List ConfigRecord)) (edidOf : Nat → Option (List Nat)) (envOf : Nat → PlanEnv) (res : ScreenRes) : PtrState × Option ScreenRes :=
  let st2 := updateFakeResources cfg edidOf envOf res (deleteIfSet st)
  match st2 with
  | .valid snap => (st2, some snap.makeReturnValue)
  | s => (s, none)

/-! ## Query correlator (lines 605-689) -/

/-- Model of `xid_in_list` (lines 89-99): does any list entry have this xid as its own
or as its parent. -/
def xid_in_list (l : List FakeOutputInfo) (xid : Nat) : Bool :=
  l.any (fun f => f.xid == xid || f.parent_xid == xid)

/-- Model of `xcb_randr_get_crtc_info` (lines 607-612): forward the request with the
reserved bits cleared, and record (sequence ↦ requested id); the cookie table
is an association list with newest entries first (`AssocList::insert`
prepends).  Returns the id as sent to the real backend and the new table. -/
def xcb_randr_get_crtc_info (table : List (Nat × Nat)) (seq crtc : Nat) : Nat × List (Nat × Nat) :=
  (crtc &&& XID_SPLIT_MASK_COMPL, (seq, crtc) :: table)

/-- Model of `xcb_randr_get_crtc_info_unchecked` (lines 613-618): same forwarding. -/
def xcb_randr_get_crtc_info_unchecked (table : List (Nat × Nat)) (seq crtc : Nat) : Nat × List (Nat × Nat) :=
  (crtc &&& XID_SPLIT_MASK_COMPL, (seq, crtc) :: table)

/-- Model of `xcb_randr_get_output_info` (lines 652-657): same forwarding for
outputs. -/
def xcb_randr_get_output_info (table : List (Nat × Nat)) (seq output : Nat) : Nat × List (Nat × Nat) :=
  (output &&& XID_SPLIT_MASK_COMPL, (seq, output) :: table)

/-- Model of `xcb_randr_get_output_info_unchecked` (lines 658-663): same
forwarding. -/
def xcb_randr_get_output_info_unchecked (table : List (Nat × Nat)) (seq output : Nat) : Nat × List (Nat × Nat) :=
  (output &&& XID_SPLIT_MASK_COMPL, (seq, output) :: table)

/-- Model of `xcb_randr_get_output_info_reply` (lines 664-689).  `realReply` is what
`_xcb_randr_get_output_info_reply` returns for this cookie.  Unknown
sequence number: pass the real reply through.  Known: consume the table
entry; with no live snapshot return null; for a real id (reserved bits
clear) return the real reply, forcing DISCONNECTED when the id occurs in the
fake-output list (as own or parent xid); for a synthetic id return the
matching fake output's assembled reply, or null when none matches.  The
`dangling` pointer state dereferences freed memory in C; no defined reply. -/
def xcb_randr_get_output_info_reply (table : List (Nat × Nat)) (seq : Nat) (fakeRes : PtrState) (realReply : OutputInfo) : Option OutputInfo × List (Nat × Nat) :=
  match table.find? (fun p => p.1 == seq) with
  | none => (some realReply, table)
  | some pr =>
    let outputId := pr.2
    let table2 := table.eraseP (fun p => p.1 == seq)
    match fakeRes with
    | .valid snap =>
      if outputId &&& XID_SPLIT_MASK == 0 then
        if xid_in_list snap.fake_outputs outputId then
          (some { realReply with connection := XCB_RANDR_CONNECTION_DISCONNECTED }, table2)
        else (some realReply, table2)
      else
        match snap.fake_outputs.find? (fun f => f.xid == outputId) with
        | some f => (some f.makeReturnValue, table2)
        | none => (none, table2)
    | _ => (none, table2)

/-! ## Concrete fixtures used to instantiate the theorems -/

/-- A monitor whose crtc reports mode id 77, present in the mode table:
3mm × 4mm reported physical size, 2×2 pixel controller. -/
def env9 : PlanEnv :=
  { output := 5
    output_info := {
      crtc := 3
      mm_width := 3
      mm_height := 4
      connection := 0
      num_crtcs := 1
      num_modes := 1
      num_preferred := 0
      num_clones := 0
      name_len := 1
      crtcs := [3]
      modes := [77]
      clones := []
      name := [65] }
    crtc_info := {
      x := 0
      y := 0
      width := 2
      height := 2
      mode := 77
      num_outputs := 1
      num_possible_outputs := 1
      outputs := [5] }
    res_modes := [{ id := 77, width := 2, height := 2, name_len := 3, extra := 9 }] }

/-- A monitor whose crtc reports a mode id absent from the (empty) mode
table of the screen-resources reply. -/
def envNoMode : PlanEnv :=
  { output := 5
    output_info := {
      crtc := 3
      mm_width := 300
      mm_height := 200
      connection := 0
      num_crtcs := 1
      num_modes := 0
      num_preferred := 0
      num_clones := 0
      name_len := 3
      crtcs := [3]
      modes := []
      clones := []
      name := [68, 80, 49] }
    crtc_info := {
      x := 0
      y := 0
      width := 100
      height := 100
      mode := 42
      num_outputs := 1
      num_possible_outputs := 1
      outputs := [5] }
    res_modes := [] }

/-- A fingerprint whose third byte differs from `rec6`'s, after a NUL at
index 1; 768 bytes long. -/
def target6 : List Nat := 97 :: 0 :: List.replicate 766 67

/-- A configuration record whose stored fingerprint agrees with `target6`
only up to the NUL at index 1, and whose target size matches `env9`'s
2×2 controller. -/
def rec6 : ConfigRecord :=
  { name := List.replicate 128 0
    edid := 97 :: 0 :: List.replicate 766 66
    width := 2
    height := 2
    plan := .leaf }

/-- A one-of-each real screen-resources reply. -/
def res7 : ScreenRes :=
  { timestamp := 10
    config_timestamp := 11
    num_crtcs := 1
    num_outputs := 1
    num_modes := 1
    names_len := 2
    crtcs := [3]
    outputs := [5]
    modes := [{ id := 77, width := 2, height := 2, name_len := 2, extra := 9 }]
    names := [65, 66] }

/-- A snapshot with one fake triple, as the planner builds for a single-leaf
plan on `env9`. -/
def snap7 : FakeScreenResources :=
  { origRes := res7
    fake_crtcs := [mkFakeCrtc env9 1 0 0 1 2 (augmentXID 3 1)]
    fake_outputs := [mkFakeOutput env9 1 1 2]
    fake_modes := [mkFakeMode (augmentXID 3 1)
      { id := 77, width := 2, height := 2, name_len := 2, extra := 9 } 1 2] }

/-- A real output-info reply for output 5. -/
def reply8 : OutputInfo :=
  { crtc := 3
    mm_width := 3
    mm_height := 4
    connection := 0
    num_crtcs := 1
    num_modes := 1
    num_preferred := 0
    num_clones := 0
    name_len := 1
    crtcs := [3]
    modes := [77]
    clones := []
    name := [65] }

/-! Bit-level helper lemmas for the codec. -/

theorem compl_eq_lor : XID_SPLIT_MASK_COMPL = (2 ^ 21 - 1) ||| 2 ^ 31 := by decide

theorem testBit_compl (k : Nat) :
    XID_SPLIT_MASK_COMPL.testBit k = (decide (k < 21) || decide (31 = k)) := by
  rw [compl_eq_lor, Nat.testBit_lor, Nat.testBit_two_pow_sub_one, Nat.testBit_two_pow]

theorem testBit_mask (k : Nat) :
    XID_SPLIT_MASK.testBit k = (decide (21 ≤ k) && decide (k < 31)) := by
  have h : XID_SPLIT_MASK = (2 ^ 10 - 1) <<< 21 := by decide
  rw [h, Nat.testBit_shiftLeft, Nat.testBit_two_pow_sub_one]
  rcases Nat.lt_or_ge k 21 with hk | hk
  · simp [Nat.not_le.mpr hk]
  · simp [hk]
    omega

/-- For a value below `2 ^ 21` the complement mask is the identity. -/
theorem land_compl_of_lt {x : Nat} (hx : x < 2 ^ 21) :
    x &&& XID_SPLIT_MASK_COMPL = x := by
  apply Nat.eq_of_testBit_eq
  intro k
  rw [Nat.testBit_land, testBit_compl]
  rcases Nat.lt_or_ge k 21 with hk | hk
  · simp [hk]
  · have : x.testBit k = false :=
      Nat.testBit_lt_two_pow (lt_of_lt_of_le hx (Nat.pow_le_pow_right (by omega) hk))
    simp [this]

/-- On inputs with clear reserved bits and an index that fits in them, the
encoder is plain addition of the shifted index. -/
theorem augmentXID_eq_add {x i : Nat} (hx : x < 2 ^ 21) (hi : i < 2 ^ 10) :
    augmentXID x i = 2 ^ 21 * i + x := by
  have hishift : i <<< XID_SPLIT_SHIFT = 2 ^ 21 * i := by
    rw [Nat.shiftLeft_eq, Nat.mul_comm]
    rfl
  have hbound : 2 ^ 21 * i < 2 ^ 32 := by
    have h := Nat.mul_le_mul_left (2 ^ 21) (show i ≤ 2 ^ 10 - 1 by omega)
    omega
  have hshift : (i <<< XID_SPLIT_SHIFT) % 2 ^ 32 = 2 ^ 21 * i := by
    rw [hishift]
    exact Nat.mod_eq_of_lt hbound
  rw [augmentXID, land_compl_of_lt hx, hshift]
  apply Nat.eq_of_testBit_eq
  intro k
  rw [Nat.testBit_lor, Nat.testBit_mul_pow_two_add i hx k]
  rcases Nat.lt_or_ge k 21 with hk | hk
  · have h1 : (2 ^ 21 * i).testBit k = false := by
      have h := Nat.testBit_mul_pow_two_add i (show (0:Nat) < 2 ^ 21 by positivity) k
      rw [Nat.add_zero] at h
      rw [h, if_pos hk]
      exact Nat.zero_testBit k
    rw [if_pos hk, h1, Bool.or_false]
  · have h2 : x.testBit k = false :=
      Nat.testBit_lt_two_pow (lt_of_lt_of_le hx (Nat.pow_le_pow_right (by omega) hk))
    have h3 : (2 ^ 21 * i).testBit k = i.testBit (k - 21) := by
      have h := Nat.testBit_mul_pow_two_add i (show (0:Nat) < 2 ^ 21 by positivity) k
      rw [Nat.add_zero] at h
      rw [h, if_neg (Nat.not_lt.mpr hk)]
    rw [if_neg (Nat.not_lt.mpr hk), h2, h3, Bool.false_or]

/-- Decoding the counter from an encoded value is division by `2 ^ 21`. -/
theorem decodeIdx_add {x : Nat} (i : Nat) (hx : x < 2 ^ 21) :
    decodeIdx (2 ^ 21 * i + x) = i := by
  rw [decodeIdx, Nat.shiftRight_eq_div_pow]
  show (2 ^ 21 * i + x) / 2 ^ 21 = i
  rw [Nat.mul_add_div (by positivity), Nat.div_eq_of_lt hx, Nat.add_zero]

/-- Decoding the real part of an encoded value recovers the low bits. -/
theorem decodeReal_add {x i : Nat} (hx : x < 2 ^ 21) (hi : i < 2 ^ 10) :
    decodeReal (2 ^ 21 * i + x) = x := by
  apply Nat.eq_of_testBit_eq
  intro k
  rw [decodeReal, Nat.testBit_land, testBit_compl, Nat.testBit_mul_pow_two_add i hx k]
  rcases Nat.lt_or_ge k 21 with hk | hk
  · simp [hk]
  · have h2 : x.testBit k = false :=
      Nat.testBit_lt_two_pow (lt_of_lt_of_le hx (Nat.pow_le_pow_right (by omega) hk))
    rw [if_neg (Nat.not_lt.mpr hk), h2]
    rcases eq_or_ne k 31 with h31 | h31
    · subst h31
      have h10 : i.testBit 10 = false := Nat.testBit_lt_two_pow hi
      simp [h10]
    · simp [Nat.not_lt.mpr hk, Ne.symm h31]

/-- Clearing the reserved bits leaves the reserved bits clear. -/
theorem land_mask_compl (x : Nat) : (x &&& XID_SPLIT_MASK_COMPL) &&& XID_SPLIT_MASK = 0 := by
  rw [Nat.land_assoc]
  have h : XID_SPLIT_MASK_COMPL &&& XID_SPLIT_MASK = 0 := by decide
  rw [h]
  apply Nat.eq_of_testBit_eq
  intro k
  rw [Nat.testBit_land]
  simp

/-- Claim C2, counterexample: the real identifier `2 ^ 31` has every bit of
the reserved range `XID_SPLIT_MASK = 0x7FE00000` clear, and 1 is in the
valid index range, yet decoding `encode(2 ^ 31, 1)` by `id >> 21` yields
index 1025, not 1 — the documented decode also shifts bit 31 into the index.
The claimed round trip fails at this input. -/
theorem claimC2_counterexample :
    2 ^ 31 &&& XID_SPLIT_MASK = 0 ∧
    decodeIdx (augmentXID (2 ^ 31) 1) = 1025 ∧ (1025 : Nat) ≠ 1 := by decide

/-- Claim C2 (amended): for every real identifier below `2 ^ 21` — i.e. with
all bits at and above the reserved range clear, which is what the documented
deployment mask `xid_mask = 0x001FFFFF` (fakexrandr.h line 15) guarantees —
and every split index `i < 2 ^ 10`, `decode(encode(real, i)) = (real, i)`,
and `encode(real, 0) = real`. -/
theorem claimC2_roundtrip_amended (real i : Nat) (h1 : real < 2 ^ 21) (h2 : i < 2 ^ 10) :
    decodeReal (augmentXID real i) = real ∧ decodeIdx (augmentXID real i) = i ∧
    augmentXID real 0 = real := by
  refine ⟨?_, ?_, ?_⟩
  · rw [augmentXID_eq_add h1 h2, decodeReal_add h1 h2]
  · rw [augmentXID_eq_add h1 h2, decodeIdx_add i h1]
  · rw [augmentXID_eq_add h1 (by norm_num), Nat.mul_zero, Nat.zero_add]

theorem claimC2_witness :
    ((5 : Nat) < 2 ^ 21 ∧ (3 : Nat) < 2 ^ 10) ∧
    (decodeReal (augmentXID 5 3) = 5 ∧ decodeIdx (augmentXID 5 3) = 3 ∧
      augmentXID 5 0 = 5) :=
  ⟨⟨by decide, by decide⟩, claimC2_roundtrip_amended 5 3 (by decide) (by decide)⟩

/-- Claim C10: each of the four detail-query issue wrappers
(`xcb_randr_get_crtc_info`, `xcb_randr_get_output_info` and their
`_unchecked` variants) forwards to the real backend an identifier whose
reserved bit range (`XID_SPLIT_MASK = 0x7FE00000`) is zero, for every
identifier argument, synthetic or real. -/
theorem claimC10_forwarded_id_reserved_clear (table : List (Nat × Nat)) (seq id : Nat) :
    (xcb_randr_get_crtc_info table seq id).1 &&& XID_SPLIT_MASK = 0 ∧
    (xcb_randr_get_crtc_info_unchecked table seq id).1 &&& XID_SPLIT_MASK = 0 ∧
    (xcb_randr_get_output_info table seq id).1 &&& XID_SPLIT_MASK = 0 ∧
    (xcb_randr_get_output_info_unchecked table seq id).1 &&& XID_SPLIT_MASK = 0 :=
  ⟨land_mask_compl id, land_mask_compl id, land_mask_compl id, land_mask_compl id⟩

/-! ## Tiling of the split traversal (claim C3) -/

theorem wadd_eq {a b : Nat} (h : a + b < 2 ^ 32) : wadd a b = a + b :=
  Nat.mod_eq_of_lt h

theorem wsub_eq {a b : Nat} (hba : b ≤ a) (ha : a < 2 ^ 32) : wsub a b = a - b := by
  rw [wsub, Nat.mod_eq_of_lt (lt_of_le_of_lt hba ha)]
  omega

/-- Every leaf rectangle is contained in the starting rectangle (for a
well-formed plan on a rectangle whose far edges stay below `2 ^ 32`). -/
theorem splitLeaves_subset : ∀ (p : SplitPlan) (x y w h : Nat), planWF p w h →
    x + w < 2 ^ 32 → y + h < 2 ^ 32 → ∀ r ∈ splitLeaves p x y w h,
    ∀ px py, inRect r px py → inRect ⟨x, y, w, h⟩ px py
  | .leaf, x, y, w, h, _, _, _, r, hr, px, py, hin => by
      simp only [splitLeaves, List.mem_singleton] at hr
      subst hr
      exact hin
  | .hsplit s a b, x, y, w, h, hwf, hx, hy, r, hr, px, py, hin => by
      obtain ⟨hs, wfa, wfb⟩ := hwf
      rw [splitLeaves, wadd_eq (by omega), wsub_eq hs (by omega)] at hr
      rcases List.mem_append.mp hr with hra | hrb
      · have hc := splitLeaves_subset a x y w s wfa hx (by omega) r hra px py hin
        simp only [inRect] at hc ⊢
        omega
      · have hc := splitLeaves_subset b x (y + s) w (h - s) wfb hx (by omega) r hrb px py hin
        simp only [inRect] at hc ⊢
        omega
  | .vsplit s a b, x, y, w, h, hwf, hx, hy, r, hr, px, py, hin => by
      obtain ⟨hs, wfa, wfb⟩ := hwf
      rw [splitLeaves, wadd_eq (by omega), wsub_eq hs (by omega)] at hr
      rcases List.mem_append.mp hr with hra | hrb
      · have hc := splitLeaves_subset a x y s h wfa (by omega) hy r hra px py hin
        simp only [inRect] at hc ⊢
        omega
      · have hc := splitLeaves_subset b (x + s) y (w - s) h wfb (by omega) hy r hrb px py hin
        simp only [inRect] at hc ⊢
        omega

/-- The leaf rectangles cover exactly the starting rectangle. -/
theorem splitLeaves_cover : ∀ (p : SplitPlan) (x y w h : Nat), planWF p w h →
    x + w < 2 ^ 32 → y + h < 2 ^ 32 → ∀ px py,
    (inRect ⟨x, y, w, h⟩ px py ↔ ∃ r ∈ splitLeaves p x y w h, inRect r px py)
  | .leaf, x, y, w, h, _, _, _, px, py => by
      simp [splitLeaves]
  | .hsplit s a b, x, y, w, h, hwf, hx, hy, px, py => by
      obtain ⟨hs, wfa, wfb⟩ := hwf
      have ha := splitLeaves_cover a x y w s wfa hx (by omega) px py
      have hb := splitLeaves_cover b x (y + s) w (h - s) wfb hx (by omega) px py
      have hgeo : inRect ⟨x, y, w, h⟩ px py ↔
          (inRect ⟨x, y, w, s⟩ px py ∨ inRect ⟨x, y + s, w, h - s⟩ px py) := by
        simp only [inRect]
        omega
      rw [splitLeaves, wadd_eq (by omega), wsub_eq hs (by omega)]
      constructor
      · intro hin
        rcases hgeo.mp hin with h1 | h1
        · obtain ⟨r, hr, hp⟩ := ha.mp h1
          exact ⟨r, List.mem_append.mpr (Or.inl hr), hp⟩
        · obtain ⟨r, hr, hp⟩ := hb.mp h1
          exact ⟨r, List.mem_append.mpr (Or.inr hr), hp⟩
      · rintro ⟨r, hr, hp⟩
        rcases List.mem_append.mp hr with hr1 | hr1
        · exact hgeo.mpr (Or.inl (ha.mpr ⟨r, hr1, hp⟩))
        · exact hgeo.mpr (Or.inr (hb.mpr ⟨r, hr1, hp⟩))
  | .vsplit s a b, x, y, w, h, hwf, hx, hy, px, py => by
      obtain ⟨hs, wfa, wfb⟩ := hwf
      have ha := splitLeaves_cover a x y s h wfa (by omega) hy px py
      have hb := splitLeaves_cover b (x + s) y (w - s) h wfb (by omega) hy px py
      have hgeo : inRect ⟨x, y, w, h⟩ px py ↔
          (inRect ⟨x, y, s, h⟩ px py ∨ inRect ⟨x + s, y, w - s, h⟩ px py) := by
        simp only [inRect]
        omega
      rw [splitLeaves, wadd_eq (by omega), wsub_eq hs (by omega)]
      constructor
      · intro hin
        rcases hgeo.mp hin with h1 | h1
        · obtain ⟨r, hr, hp⟩ := ha.mp h1
          exact ⟨r, List.mem_append.mpr (Or.inl hr), hp⟩
        · obtain ⟨r, hr, hp⟩ := hb.mp h1
          exact ⟨r, List.mem_append.mpr (Or.inr hr), hp⟩
      · rintro ⟨r, hr, hp⟩
        rcases List.mem_append.mp hr with hr1 | hr1
        · exact hgeo.mpr (Or.inl (ha.mpr ⟨r, hr1, hp⟩))
        · exact hgeo.mpr (Or.inr (hb.mpr ⟨r, hr1, hp⟩))

/-- No two distinct leaf rectangles share a point. -/
theorem splitLeaves_pairwise : ∀ (p : SplitPlan) (x y w h : Nat), planWF p w h →
    x + w < 2 ^ 32 → y + h < 2 ^ 32 →
    (splitLeaves p x y w h).Pairwise rectDisjoint
  | .leaf, x, y, w, h, _, _, _ => by
      simp [splitLeaves]
  | .hsplit s a b, x, y, w, h, hwf, hx, hy => by
      obtain ⟨hs, wfa, wfb⟩ := hwf
      rw [splitLeaves, wadd_eq (by omega), wsub_eq hs (by omega)]
      refine List.pairwise_append.mpr
        ⟨splitLeaves_pairwise a x y w s wfa hx (by omega),
         splitLeaves_pairwise b x (y + s) w (h - s) wfb hx (by omega), ?_⟩
      intro r1 hr1 r2 hr2 px py hcon
      obtain ⟨hp1, hp2⟩ := hcon
      have c1 := splitLeaves_subset a x y w s wfa hx (by omega) r1 hr1 px py hp1
      have c2 := splitLeaves_subset b x (y + s) w (h - s) wfb hx (by omega) r2 hr2 px py hp2
      simp only [inRect] at c1 c2
      omega
  | .vsplit s a b, x, y, w, h, hwf, hx, hy => by
      obtain ⟨hs, wfa, wfb⟩ := hwf
      rw [splitLeaves, wadd_eq (by omega), wsub_eq hs (by omega)]
      refine List.pairwise_append.mpr
        ⟨splitLeaves_pairwise a x y s h wfa (by omega) hy,
         splitLeaves_pairwise b (x + s) y (w - s) h wfb (by omega) hy, ?_⟩
      intro r1 hr1 r2 hr2 px py hcon
      obtain ⟨hp1, hp2⟩ := hcon
      have c1 := splitLeaves_subset a x y s h wfa (by omega) hy r1 hr1 px py hp1
      have c2 := splitLeaves_subset b (x + s) y (w - s) h wfb (by omega) hy r2 hr2 px py hp2
      simp only [inRect] at c1 c2
      omega

/-- Claim C3, counterexample: the claim quantifies over every split plan and
rectangle, but a plan whose stored offset exceeds the dimension being split
makes the `unsigned` subtraction `height - split_pos` wrap: splitting the
1×1 rectangle at (0,0) horizontally at offset 2 produces the leaves
(0,0,1,2) and (0,2,1,2^32-1), whose union is not the original rectangle
(the point (0,1) lies in a leaf but not in the rectangle). -/
theorem claimC3_counterexample :
    ¬((∀ px py, inRect ⟨0, 0, 1, 1⟩ px py ↔
        ∃ r ∈ splitLeaves (.hsplit 2 .leaf .leaf) 0 0 1 1, inRect r px py) ∧
      (splitLeaves (.hsplit 2 .leaf .leaf) 0 0 1 1).Pairwise rectDisjoint) := by
  rintro ⟨hcov, -⟩
  have h := hcov 0 1
  revert h
  decide

/-- Claim C3 (amended): for every split plan that is well-formed for the
starting rectangle — every horizontal offset at most the height it splits,
every vertical offset at most the width, as the configuration tool
guarantees — and every starting rectangle whose far edges stay below
`2 ^ 32` (so the `unsigned int` arithmetic does not wrap), the leaf
rectangles of the recursive split traversal exactly tile the starting
rectangle: their union is the rectangle and no two of them overlap. -/
theorem claimC3_tiling_amended (p : SplitPlan) (x y w h : Nat)
    (hx : x + w < 2 ^ 32) (hy : y + h < 2 ^ 32) (hwf : planWF p w h) :
    (∀ px py, inRect ⟨x, y, w, h⟩ px py ↔
      ∃ r ∈ splitLeaves p x y w h, inRect r px py) ∧
    (splitLeaves p x y w h).Pairwise rectDisjoint :=
  ⟨fun px py => splitLeaves_cover p x y w h hwf hx hy px py,
   splitLeaves_pairwise p x y w h hwf hx hy⟩

theorem claimC3_witness :
    ((0 + 3840 < 2 ^ 32) ∧ (0 + 1080 < 2 ^ 32) ∧
      planWF (.vsplit 1920 .leaf .leaf) 3840 1080) ∧
    ((∀ px py, inRect ⟨0, 0, 3840, 1080⟩ px py ↔
        ∃ r ∈ splitLeaves (.vsplit 1920 .leaf .leaf) 0 0 3840 1080, inRect r px py) ∧
      (splitLeaves (.vsplit 1920 .leaf .leaf) 0 0 3840 1080).Pairwise rectDisjoint) :=
  ⟨⟨by decide, by decide, by decide⟩,
   claimC3_tiling_amended (.vsplit 1920 .leaf .leaf) 0 0 3840 1080
     (by decide) (by decide) (by decide)⟩

/-! ## Planner emission counts and physical sizes (claims C4, C9) -/

/-- Emission counts of the split planner: one fake output and one fake crtc
per leaf unconditionally; one fake mode per leaf exactly when the parent
crtc's current mode id occurs in the real mode table, none otherwise. -/
theorem foreachSplitP_counts : ∀ (p : SplitPlan) (env : PlanEnv) (n x y w h : Nat) (acc : FakeLists),
    ((foreachSplitP env p n x y w h acc).2.outputs.length = acc.outputs.length + leafCount p) ∧
    ((foreachSplitP env p n x y w h acc).2.crtcs.length = acc.crtcs.length + leafCount p) ∧
    ((foreachSplitP env p n x y w h acc).2.modes.length = acc.modes.length +
      (if (env.res_modes.find? (fun m => m.id == env.crtc_info.mode)).isSome
        then leafCount p else 0))
  | .leaf, env, n, x, y, w, h, acc => by
      cases hf : env.res_modes.find? (fun m => m.id == env.crtc_info.mode) with
      | none => simp [foreachSplitP, pushLeaf, leafCount, hf]
      | some m => simp [foreachSplitP, pushLeaf, leafCount, hf]
  | .hsplit s a b, env, n, x, y, w, h, acc => by
      have ha := foreachSplitP_counts a env n x y w s acc
      have hb := foreachSplitP_counts b env (foreachSplitP env a n x y w s acc).1
        x (wadd y s) w (wsub h s) (foreachSplitP env a n x y w s acc).2
      simp only [foreachSplitP, leafCount]
      cases hf : (env.res_modes.find? (fun m => m.id == env.crtc_info.mode)).isSome <;>
        simp [hf] at ha hb ⊢ <;> omega
  | .vsplit s a b, env, n, x, y, w, h, acc => by
      have ha := foreachSplitP_counts a env n x y s h acc
      have hb := foreachSplitP_counts b env (foreachSplitP env a n x y s h acc).1
        (wadd x s) y (wsub w s) h (foreachSplitP env a n x y s h acc).2
      simp only [foreachSplitP, leafCount]
      cases hf : (env.res_modes.find? (fun m => m.id == env.crtc_info.mode)).isSome <;>
        simp [hf] at ha hb ⊢ <;> omega

/-- Claim C4, counterexample: a plan with one leaf applied to a monitor whose
current crtc mode id (42) does not occur in the (empty) real mode table
produces 0 fake modes, not leafCount = 1 — the mode triple is not emitted
"regardless of the content of the real mode table". -/
theorem claimC4_counterexample :
    ((foreachSplitP envNoMode .leaf 0 0 0 50 50 ⟨[], [], []⟩).2.modes.length = 0) ∧
    leafCount .leaf = 1 ∧
    ((foreachSplitP envNoMode .leaf 0 0 0 50 50 ⟨[], [], []⟩).2.modes.length ≠
      leafCount .leaf) := by decide

/-- Claim C4 (amended): for every plan with L leaves the planner appends
exactly L fake outputs and exactly L fake crtcs to the caller's lists,
regardless of the parent controller's mode and of the mode table; it appends
exactly L fake modes when the parent controller's current mode id occurs in
the real mode table, and none otherwise. -/
theorem claimC4_counts_amended (p : SplitPlan) (env : PlanEnv) (n x y w h : Nat) (acc : FakeLists) :
    ((foreachSplitP env p n x y w h acc).2.outputs.length = acc.outputs.length + leafCount p) ∧
    ((foreachSplitP env p n x y w h acc).2.crtcs.length = acc.crtcs.length + leafCount p) ∧
    ((foreachSplitP env p n x y w h acc).2.modes.length = acc.modes.length +
      (if (env.res_modes.find? (fun m => m.id == env.crtc_info.mode)).isSome
        then leafCount p else 0)) :=
  foreachSplitP_counts p env n x y w h acc

/-- The physical sizes the planner emits, leaf by leaf: each is the parent's
millimetre size scaled per dimension, `mm * leaf_extent` with 32-bit
`unsigned` wrap, then truncated integer division by the parent crtc's
extent. -/
theorem foreachSplitP_mm : ∀ (p : SplitPlan) (env : PlanEnv) (n x y w h : Nat) (acc : FakeLists),
    (foreachSplitP env p n x y w h acc).2.outputs.map
        (fun o => (o.orig_output_info.mm_width, o.orig_output_info.mm_height)) =
      acc.outputs.map (fun o => (o.orig_output_info.mm_width, o.orig_output_info.mm_height)) ++
      (splitLeaves p x y w h).map (fun r =>
        (env.output_info.mm_width * r.w % 2 ^ 32 / env.crtc_info.width,
         env.output_info.mm_height * r.h % 2 ^ 32 / env.crtc_info.height))
  | .leaf, env, n, x, y, w, h, acc => by
      cases hf : env.res_modes.find? (fun m => m.id == env.crtc_info.mode) with
      | none => simp [foreachSplitP, pushLeaf, splitLeaves, mkFakeOutput, hf]
      | some m => simp [foreachSplitP, pushLeaf, splitLeaves, mkFakeOutput, hf]
  | .hsplit s a b, env, n, x, y, w, h, acc => by
      have ha := foreachSplitP_mm a env n x y w s acc
      have hb := foreachSplitP_mm b env (foreachSplitP env a n x y w s acc).1
        x (wadd y s) w (wsub h s) (foreachSplitP env a n x y w s acc).2
      simp only [foreachSplitP, splitLeaves, List.map_append]
      rw [hb, ha, List.append_assoc]
  | .vsplit s a b, env, n, x, y, w, h, acc => by
      have ha := foreachSplitP_mm a env n x y s h acc
      have hb := foreachSplitP_mm b env (foreachSplitP env a n x y s h acc).1
        (wadd x s) y (wsub w s) h (foreachSplitP env a n x y s h acc).2
      simp only [foreachSplitP, splitLeaves, List.map_append]
      rw [hb, ha, List.append_assoc]

/-- Claim C9, counterexample: parent output 3mm × 4mm on a 2×2 controller,
one leaf of size 1×1.  The emitted fake output measures 1mm × 2mm — area 2 —
while the parent physical size apportioned by the area ratio
(3·4)·(1·1)/(2·2) = 3 exactly (the division is exact, witnessed by the
divisibility conjunct).  The code scales each millimetre dimension by its
own linear ratio with truncating division, not the size by the area
ratio. -/
theorem claimC9_counterexample :
    ((foreachSplitP env9 .leaf 0 0 0 1 1 ⟨[], [], []⟩).2.outputs.map
        (fun o => o.orig_output_info.mm_width * o.orig_output_info.mm_height)) = [2] ∧
    env9.output_info.mm_width * env9.output_info.mm_height * (1 * 1) /
      (env9.crtc_info.width * env9.crtc_info.height) = 3 ∧
    (env9.crtc_info.width * env9.crtc_info.height) ∣
      env9.output_info.mm_width * env9.output_info.mm_height * (1 * 1) ∧
    (2 : Nat) ≠ 3 := by decide

/-- Claim C9 (amended): for every leaf of rectangle w×h, the emitted fake
output's millimetre size is the parent's size scaled per dimension —
`mm_width * w / parentW` and `mm_height * h / parentH` — in `unsigned`
arithmetic (the product wraps at `2 ^ 32`) with truncating integer division,
the parent extents being the crtc-info reply's width and height (taken
positive, as C division by zero is undefined). -/
theorem claimC9_mm_scaling_amended (p : SplitPlan) (env : PlanEnv) (n x y w h : Nat)
    (acc : FakeLists) (_hW : 0 < env.crtc_info.width) (_hH : 0 < env.crtc_info.height) :
    (foreachSplitP env p n x y w h acc).2.outputs.map
        (fun o => (o.orig_output_info.mm_width, o.orig_output_info.mm_height)) =
      acc.outputs.map (fun o => (o.orig_output_info.mm_width, o.orig_output_info.mm_height)) ++
      (splitLeaves p x y w h).map (fun r =>
        (env.output_info.mm_width * r.w % 2 ^ 32 / env.crtc_info.width,
         env.output_info.mm_height * r.h % 2 ^ 32 / env.crtc_info.height)) :=
  foreachSplitP_mm p env n x y w h acc

theorem claimC9_witness :
    (0 < env9.crtc_info.width ∧ 0 < env9.crtc_info.height) ∧
    ((foreachSplitP env9 (.vsplit 1 .leaf .leaf) 0 0 0 2 2 ⟨[], [], []⟩).2.outputs.map
        (fun o => (o.orig_output_info.mm_width, o.orig_output_info.mm_height)) =
      (splitLeaves (.vsplit 1 .leaf .leaf) 0 0 2 2).map (fun r =>
        (env9.output_info.mm_width * r.w % 2 ^ 32 / env9.crtc_info.width,
         env9.output_info.mm_height * r.h % 2 ^ 32 / env9.crtc_info.height))) :=
  ⟨⟨by decide, by decide⟩, by
    have h := claimC9_mm_scaling_amended (.vsplit 1 .leaf .leaf) env9 0 0 0 2 2
      ⟨[], [], []⟩ (by decide) (by decide)
    simpa using h⟩

/-! ## The byte-level traversal agrees with the structural one (and claim C5) -/

theorem readLE32_encLE32 (s : Nat) (rest : List Nat) (hs : s < 2 ^ 32) :
    readLE32 (encLE32 s ++ rest) = some s := by
  simp only [encLE32, List.cons_append, List.nil_append, readLE32]
  congr 1
  omega

theorem drop4_encLE32 (s : Nat) (rest : List Nat) : (encLE32 s ++ rest).drop 4 = rest := by
  simp [encLE32]

/-- On a serialized plan (with in-range offsets and enough fuel, e.g. the
payload's own length), the byte-level `_config_foreach_split` returns
normally, leaves exactly the structural traversal's objects, and advances
the config pointer past the payload. -/
theorem configForeachSplit_ser : ∀ (p : SplitPlan) (env : PlanEnv) (fuel : Nat) (rest : List Nat)
    (n x y w h : Nat) (acc : FakeLists), serLen p ≤ fuel → planBounded p →
    configForeachSplit env fuel (ser p ++ rest) n x y w h acc =
      (foreachSplitP env p n x y w h acc, some rest)
  | .leaf, env, fuel, rest, n, x, y, w, h, acc, hfuel, _ => by
      cases fuel with
      | zero => simp [serLen] at hfuel
      | succ f => simp [ser, configForeachSplit, foreachSplitP]
  | .hsplit s a b, env, fuel, rest, n, x, y, w, h, acc, hfuel, hbnd => by
      cases fuel with
      | zero => simp [serLen] at hfuel
      | succ f =>
        obtain ⟨hs32, hba, hbb⟩ := hbnd
        simp only [serLen] at hfuel
        have ih1 := configForeachSplit_ser a env f (ser b ++ rest) n x y w s acc
          (by omega) hba
        have ih2 := configForeachSplit_ser b env f rest
          (foreachSplitP env a n x y w s acc).1 x (wadd y s) w (wsub h s)
          (foreachSplitP env a n x y w s acc).2 (by omega) hbb
        have hlist : ser (.hsplit s a b) ++ rest =
            72 :: (encLE32 s ++ (ser a ++ (ser b ++ rest))) := by
          simp [ser]
        rw [hlist, configForeachSplit]
        simp [readLE32_encLE32 s _ hs32, drop4_encLE32, ih1, ih2, foreachSplitP]
  | .vsplit s a b, env, fuel, rest, n, x, y, w, h, acc, hfuel, hbnd => by
      cases fuel with
      | zero => simp [serLen] at hfuel
      | succ f =>
        obtain ⟨hs32, hba, hbb⟩ := hbnd
        simp only [serLen] at hfuel
        have ih1 := configForeachSplit_ser a env f (ser b ++ rest) n x y s h acc
          (by omega) hba
        have ih2 := configForeachSplit_ser b env f rest
          (foreachSplitP env a n x y s h acc).1 (wadd x s) y (wsub w s) h
          (foreachSplitP env a n x y s h acc).2 (by omega) hbb
        have hlist : ser (.vsplit s a b) ++ rest =
            86 :: (encLE32 s ++ (ser a ++ (ser b ++ rest))) := by
          simp [ser]
        rw [hlist, configForeachSplit]
        simp [readLE32_encLE32 s _ hs32, drop4_encLE32, ih1, ih2, foreachSplitP]

/-- Claim C5: the payload `48 01 00 00 00 4E 58 00 00 00 00` — a horizontal
split at offset 1 whose first child is a leaf and whose second child carries
the malformed tag `'X'` (0x58) — reaches `assert(config[0] == 'V')` with a
tag that is none of N/H/V (aborting the process; with assertions disabled it
would silently parse the junk as a vertical split).  By that point the first
child's fake output and fake crtc are already appended to the caller's
lists: the malformed plan is neither rejected with a structured error nor
applied atomically. -/
theorem claimC5_nonatomic :
    ((configForeachSplit env9 20 [72, 1, 0, 0, 0, 78, 88, 0, 0, 0, 0] 0 0 0 4 4
        ⟨[], [], []⟩).2 = none) ∧
    ((configForeachSplit env9 20 [72, 1, 0, 0, 0, 78, 88, 0, 0, 0, 0] 0 0 0 4 4
        ⟨[], [], []⟩).1.2.outputs.length = 1) ∧
    ((configForeachSplit env9 20 [72, 1, 0, 0, 0, 78, 88, 0, 0, 0, 0] 0 0 0 4 4
        ⟨[], [], []⟩).1.2.crtcs.length = 1) := by decide

/-! ## Record matching (claim C6) -/

/-- Claim C6 (amended): the scan applies the split plan of the first record
(in stream order) whose fingerprint field compares equal to the output's
fingerprint under `strncmp(..., 768)` — equality of the NUL-terminated
strings within the first 768 bytes, not of all 768 bytes — and whose
recorded target size equals the current controller size exactly; a record
failing either test is skipped, and with no such record the lists are left
untouched and no match is reported. -/
theorem claimC6_first_match_amended (env : PlanEnv) (target : List Nat) (acc : FakeLists)
    (records : List ConfigRecord) :
    config_handle_output env target acc records =
      match records.find? (fun r => strncmpEq r.edid target 768 &&
          (env.crtc_info.width == r.width && env.crtc_info.height == r.height)) with
      | some r => ((foreachSplitP env r.plan 0 0 0 r.width r.height acc).2, true)
      | none => (acc, false) := by
  induction records with
  | nil => simp [config_handle_output]
  | cons r rest ih =>
      cases h1 : strncmpEq r.edid target 768 with
      | false => simp [config_handle_output, h1, ih, List.find?]
      | true =>
        cases h2 : (env.crtc_info.width == r.width && env.crtc_info.height == r.height) with
        | false => simp [config_handle_output, h1, h2, ih, List.find?]
        | true => simp [config_handle_output, h1, h2, List.find?]

set_option maxRecDepth 40000 in
/-- Claim C6, counterexample: a record whose 768-byte fingerprint field
differs from the output's fingerprint (they disagree from index 2 on) is
nevertheless matched and applied, because `strncmp` stops at the NUL both
share at index 1.  Matching is not byte-exact equality of the 768-byte
fields. -/
theorem claimC6_counterexample :
    ((config_handle_output env9 target6 ⟨[], [], []⟩ [rec6]).2 = true) ∧
    rec6.edid ≠ target6 ∧ rec6.edid.length = 768 ∧ target6.length = 768 := by decide

/-! ## Composed screen-resources reply (claim C7) -/

theorem takeWhile_append_zero {c : List Nat} (hc : ∀ x ∈ c, x ≠ 0) :
    (c ++ [0]).takeWhile (fun b => b != 0) = c := by
  induction c with
  | nil => simp
  | cons a t ih =>
      have ha : a ≠ 0 := hc a (List.mem_cons_self a t)
      simp only [List.cons_append, List.takeWhile_cons]
      simp [ha, ih (fun x hx => hc x (List.mem_cons_of_mem a hx))]

theorem strcatBuf_append_zero {c : List Nat} (hc : ∀ x ∈ c, x ≠ 0) (nm : List Nat) :
    strcatBuf (c ++ [0]) nm = (c ++ nm) ++ [0] := by
  rw [strcatBuf, takeWhile_append_zero hc, List.append_assoc]

/-- Folding `strcat` of a list of NUL-free names over a NUL-terminated
buffer with NUL-free content concatenates the names after the content. -/
theorem foldl_strcatBuf : ∀ (ms : List (List Nat)) (c : List Nat), (∀ x ∈ c, x ≠ 0) →
    (∀ nm ∈ ms, ∀ x ∈ nm, x ≠ 0) →
    ms.foldl (fun buf nm => strcatBuf buf nm) (c ++ [0]) = (c ++ ms.flatten) ++ [0]
  | [], c, _, _ => by simp
  | nm :: t, c, hc, hms => by
      have hnm : ∀ x ∈ nm, x ≠ 0 := hms nm (List.mem_cons_self nm t)
      have hcnm : ∀ x ∈ c ++ nm, x ≠ 0 := by
        intro x hx
        rcases List.mem_append.mp hx with h | h
        · exact hc x h
        · exact hnm x h
      have ih := foldl_strcatBuf t (c ++ nm) hcnm
        (fun m hm => hms m (List.mem_cons_of_mem nm hm))
      simp only [List.foldl_cons, strcatBuf_append_zero hc nm]
      rw [ih]
      simp [List.append_assoc]

/-- Claim C7: for every snapshot whose cached real reply is well-formed
(each count field equals its array's length, within the `uint16_t` range
even after appending the fakes) and whose name data is NUL-free (as protocol
name blobs are), the composed reply copies the real fixed header; each of
the crtc, output and mode arrays holds all real entries first, then all fake
entries in list order; each count equals the real count plus the number of
corresponding fake objects; and the name blob is the real blob followed by
every fake mode's name. -/
theorem claimC7_compose (s : FakeScreenResources)
    (hc : s.origRes.num_crtcs = s.origRes.crtcs.length)
    (ho : s.origRes.num_outputs = s.origRes.outputs.length)
    (hm : s.origRes.num_modes = s.origRes.modes.length)
    (hn : s.origRes.names_len = s.origRes.names.length)
    (hbc : s.origRes.num_crtcs + s.fake_crtcs.length < 2 ^ 16)
    (hbo : s.origRes.num_outputs + s.fake_outputs.length < 2 ^ 16)
    (hbm : s.origRes.num_modes + s.fake_modes.length < 2 ^ 16)
    (hnames : ∀ x ∈ s.origRes.names, x ≠ 0)
    (hfnames : ∀ m ∈ s.fake_modes, ∀ x ∈ m.name, x ≠ 0) :
    (s.makeReturnValue.timestamp = s.origRes.timestamp) ∧
    (s.makeReturnValue.config_timestamp = s.origRes.config_timestamp) ∧
    (s.makeReturnValue.crtcs = s.origRes.crtcs ++ s.fake_crtcs.map (fun c => c.xid)) ∧
    (s.makeReturnValue.num_crtcs = s.origRes.num_crtcs + s.fake_crtcs.length) ∧
    (s.makeReturnValue.outputs = s.origRes.outputs ++ s.fake_outputs.map (fun f => f.xid)) ∧
    (s.makeReturnValue.num_outputs = s.origRes.num_outputs + s.fake_outputs.length) ∧
    (s.makeReturnValue.modes = s.origRes.modes ++ s.fake_modes.map (fun m => m.info)) ∧
    (s.makeReturnValue.num_modes = s.origRes.num_modes + s.fake_modes.length) ∧
    (s.makeReturnValue.names.takeWhile (fun b => b != 0) =
      s.origRes.names ++ (s.fake_modes.map (fun m => m.name)).flatten) := by
  have hfold := foldl_strcatBuf (s.fake_modes.map (fun m => m.name))
    (s.origRes.names.take s.origRes.names_len)
    (by
      intro x hx
      exact hnames x (List.mem_of_mem_take hx))
    (by
      intro nm hnm x hx
      obtain ⟨m, hma, hmb⟩ := List.mem_map.mp hnm
      refine hfnames m hma x ?_
      rw [hmb]
      exact hx)
  rw [List.foldl_map] at hfold
  have htake : s.origRes.names.take s.origRes.names_len = s.origRes.names := by
    rw [hn, List.take_length]
  refine ⟨rfl, rfl, ?_, ?_, ?_, ?_, ?_, ?_, ?_⟩
  · simp [FakeScreenResources.makeReturnValue, hc, List.take_length]
  · simp only [FakeScreenResources.makeReturnValue]
    omega
  · simp [FakeScreenResources.makeReturnValue, ho, List.take_length]
  · simp only [FakeScreenResources.makeReturnValue]
    omega
  · simp [FakeScreenResources.makeReturnValue, hm, List.take_length]
  · simp only [FakeScreenResources.makeReturnValue]
    omega
  · simp only [FakeScreenResources.makeReturnValue]
    rw [hfold, htake]
    exact takeWhile_append_zero (by
      intro x hx
      rcases List.mem_append.mp hx with h | h
      · exact hnames x h
      · obtain ⟨nm, hnm, hxnm⟩ := List.mem_flatten.mp h
        obtain ⟨m, hma, hmb⟩ := List.mem_map.mp hnm
        refine hfnames m hma x ?_
        rw [hmb]
        exact hxnm)

set_option maxRecDepth 4000 in
theorem claimC7_witness :
    (snap7.makeReturnValue.timestamp = snap7.origRes.timestamp) ∧
    (snap7.makeReturnValue.config_timestamp = snap7.origRes.config_timestamp) ∧
    (snap7.makeReturnValue.crtcs = snap7.origRes.crtcs ++ snap7.fake_crtcs.map (fun c => c.xid)) ∧
    (snap7.makeReturnValue.num_crtcs = snap7.origRes.num_crtcs + snap7.fake_crtcs.length) ∧
    (snap7.makeReturnValue.outputs = snap7.origRes.outputs ++ snap7.fake_outputs.map (fun f => f.xid)) ∧
    (snap7.makeReturnValue.num_outputs = snap7.origRes.num_outputs + snap7.fake_outputs.length) ∧
    (snap7.makeReturnValue.modes = snap7.origRes.modes ++ snap7.fake_modes.map (fun m => m.info)) ∧
    (snap7.makeReturnValue.num_modes = snap7.origRes.num_modes + snap7.fake_modes.length) ∧
    (snap7.makeReturnValue.names.takeWhile (fun b => b != 0) =
      snap7.origRes.names ++ (snap7.fake_modes.map (fun m => m.name)).flatten) :=
  claimC7_compose snap7 (by decide) (by decide) (by decide) (by decide)
    (by decide) (by decide) (by decide) (by decide) (by decide)

/-! ## Screen-resources fetch under configuration failure (claim C1) -/

/-- Claim C1: when opening the configuration stream fails,
`updateFakeResources` returns without installing a snapshot, but both reply
wrappers have already freed the previous snapshot (without clearing the
pointer) and unconditionally dereference `fakeScreenResources` afterwards.
On the first call the pointer is still NULL and on later calls it dangles;
either way the call produces no defined reply (a crash / use-after-free in
C) instead of passing the real reply through — the failure is fatal and the
engine state is not self-consistent. -/
theorem claimC1_config_failure_is_fatal :
    (∀ (edidOf : Nat → Option (List Nat)) (envOf : Nat → PlanEnv) (res : ScreenRes),
      getScreenResourcesReply .null none edidOf envOf res = (.null, none)) ∧
    (∀ (snap : FakeScreenResources) (edidOf : Nat → Option (List Nat))
      (envOf : Nat → PlanEnv) (res : ScreenRes),
      getScreenResourcesReply (.valid snap) none edidOf envOf res = (.dangling, none)) :=
  ⟨fun _ _ _ => rfl, fun _ _ _ _ => rfl⟩

/-! ## Output-info resolution for real identifiers (claim C8) -/

/-- Claim C8: when a resolved output-info query concerns a real identifier
(reserved bits clear) and a snapshot is live (with every fake output's own
xid carrying a nonzero reserved range, as the planner always encodes), the
returned reply is the real backend's reply with its connection state forced
to DISCONNECTED exactly when some fake output has this identifier as its
parent; with no fake child the real reply is returned unmodified. -/
theorem claimC8_output_info_real (table : List (Nat × Nat)) (seq outputId : Nat)
    (snap : FakeScreenResources) (realReply : OutputInfo)
    (hfind : table.find? (fun p => p.1 == seq) = some (seq, outputId))
    (hreal : outputId &&& XID_SPLIT_MASK = 0)
    (hfakes : ∀ f ∈ snap.fake_outputs, f.xid &&& XID_SPLIT_MASK ≠ 0) :
    (xcb_randr_get_output_info_reply table seq (.valid snap) realReply).1 =
      some (if ∃ f ∈ snap.fake_outputs, f.parent_xid = outputId
            then { realReply with connection := XCB_RANDR_CONNECTION_DISCONNECTED }
            else realReply) := by
  unfold xcb_randr_get_output_info_reply
  rw [hfind]
  simp only [hreal]
  by_cases hp : ∃ f ∈ snap.fake_outputs, f.parent_xid = outputId
  · have hlst : xid_in_list snap.fake_outputs outputId = true := by
      obtain ⟨f, hfm, hpar⟩ := hp
      rw [xid_in_list, List.any_eq_true]
      exact ⟨f, hfm, by simp [hpar]⟩
    simp [hlst, hp]
  · have hlst : xid_in_list snap.fake_outputs outputId = false := by
      rw [xid_in_list, List.any_eq_false]
      intro f hfm
      simp only [Bool.or_eq_true, beq_iff_eq, not_or]
      constructor
      · intro heq
        exact hfakes f hfm (heq ▸ hreal)
      · intro heq
        exact hp ⟨f, hfm, heq⟩
    simp [hlst, hp]

theorem claimC8_witness :
    (xcb_randr_get_output_info_reply [(7, 5)] 7 (.valid snap7) reply8).1 =
      some { reply8 with connection := XCB_RANDR_CONNECTION_DISCONNECTED } := by
  rw [claimC8_output_info_real [(7, 5)] 7 5 snap7 reply8 (by decide) (by decide) (by decide)]
  decide

end FakeXRandr
